import Mathlib

/-!
Shallow embedding of the accs-market-clone marketplace core: listings,
secure payloads, orders, transactions, disputes and payouts, together with
the handler functions that mutate them. The database is a record of lists;
each handler is a pure function from a database (plus its inputs and the
current time, in hours) to an `Except` error result, mirroring the thrown
`Error` messages of the TypeScript handlers. Time stamps are natural
numbers counted in hours, so the source's `now() + 24h` becomes `now + 24`.
-/

namespace AccsMarket

/-- Listing status enum of the database schema. -/
inductive ListingStatus where
  | available
  | sold
  | delisted
deriving DecidableEq, Repr

/-- Order status enum of the database schema. -/
inductive OrderStatus where
  | pending
  | paid
  | delivered
  | disputed
  | complete
  | refunded
deriving DecidableEq, Repr

/-- Transaction status enum of the database schema. -/
inductive TransactionStatus where
  | initiated
  | succeeded
  | failed
deriving DecidableEq, Repr

/-- Dispute status enum of the database schema (`open` is a Lean keyword,
hence the underscore). -/
inductive DisputeStatus where
  | open_
  | resolved_buyer
  | resolved_seller
  | refunded
deriving DecidableEq, Repr

/-- Payout status enum of the database schema. -/
inductive PayoutStatus where
  | requested
  | processing
  | paid
  | failed
deriving DecidableEq, Repr

/-- User role enum of the database schema. -/
inductive Role where
  | buyer
  | seller
  | admin
deriving DecidableEq, Repr

/-- A row of the users table (only the fields the handlers consult). -/
structure User where
  id : Nat
  role : Role
deriving DecidableEq, Repr

/-- A row of the listings table. -/
structure Listing where
  id : Nat
  seller_id : Nat
  category_id : Nat
  title : String
  description : String
  price_cents : Int
  currency : String
  status : ListingStatus
  has_secure_payload : Bool
  created_at : Nat
  updated_at : Nat
deriving DecidableEq, Repr

/-- A row of the listing_secure_payloads table: ciphertext and nonce only,
the table has no column for the encryption key. -/
structure SecurePayload where
  listing_id : Nat
  cipher_text : String
  nonce : String
deriving DecidableEq, Repr

/-- A row of the orders table. -/
structure Order where
  id : Nat
  buyer_id : Nat
  listing_id : Nat
  total_cents : Int
  currency : String
  status : OrderStatus
  expires_at : Option Nat
  created_at : Nat
  updated_at : Nat
deriving DecidableEq, Repr

/-- A row of the transactions table. -/
structure Transaction where
  order_id : Nat
  provider_ref : String
  amount_cents : Int
  status : TransactionStatus
deriving DecidableEq, Repr

/-- A row of the disputes table. -/
structure Dispute where
  id : Nat
  order_id : Nat
  opener_id : Nat
  reason : String
  status : DisputeStatus
  created_at : Nat
  updated_at : Nat
deriving DecidableEq, Repr

/-- A row of the payouts table. -/
structure Payout where
  id : Nat
  seller_id : Nat
  amount_cents : Int
  status : PayoutStatus
  provider_ref : Option String
deriving DecidableEq, Repr

/-- The database: one list per ledger table (categories carry only ids,
which is all `upsertListing` consults). -/
structure DB where
  users : List User
  categories : List Nat
  listings : List Listing
  securePayloads : List SecurePayload
  orders : List Order
  transactions : List Transaction
  disputes : List Dispute
  payouts : List Payout
deriving DecidableEq, Repr

/-- The thrown `Error` messages of the handlers, as an error kind enum. -/
inductive Err where
  | categoryNotFound
  | listingNotFound
  | listingNotFoundOrAccessDenied
  | listingNotAvailable
  | cannotPurchaseOwnListing
  | cannotManuallySetSold
  | orderNotFound
  | accessDenied
  | orderNotFoundOrAccessDenied
  | orderMustBePaidToAcknowledge
  | onlyParticipantsCanOpenDisputes
  | disputeAlreadyExists
  | disputesOnlyForPaidOrDelivered
  | onlyAdminsCanResolveDisputes
  | disputeNotFound
  | disputeNotOpen
deriving DecidableEq, Repr

/-- Response of `createPaymentIntent`. -/
structure PaymentIntentResponse where
  client_secret : String
  order_id : Nat
deriving DecidableEq, Repr

/-- Response of `getOrder`: the order fields plus the optional
`decryptedCredentials` field. -/
structure OrderResponse where
  id : Nat
  buyer_id : Nat
  listing_id : Nat
  total_cents : Int
  currency : String
  status : OrderStatus
  expires_at : Option Nat
  created_at : Nat
  updated_at : Nat
  decryptedCredentials : Option String
deriving DecidableEq, Repr

/-- Balance response of `getMyBalance`. -/
structure BalanceResponse where
  available_cents : Int
  pending_cents : Int
deriving DecidableEq, Repr

/-- Dispute resolution argument of `resolveDispute`. -/
inductive Resolution where
  | buyer
  | seller
  | refund
deriving DecidableEq, Repr

/-- Outcome of the webhook payment-confirmation handler. -/
inductive ConfirmResult where
  | applied
  | alreadyProcessed
  | notFound
deriving DecidableEq, Repr

/-- Embeds `createPaymentIntent` of `src/unnamed/part_007`: checks the
listing exists, is `available`, and does not belong to the buyer; then
inserts a `pending` order at the listing's price and currency plus an
`initiated` transaction whose `provider_ref` is the payment-intent id part
of the mock client secret. The listing row itself is not touched.
`newOrderId` stands for the id the database generates for the new row. -/
def createPaymentIntent (db : DB) (listing_id buyerId newOrderId : Nat)
    (now : Nat) : Except Err (PaymentIntentResponse × DB) :=
  match db.listings.find? (fun l => decide (l.id = listing_id)) with
  | none => .error .listingNotFound
  | some listing =>
    if ¬ listing.status = ListingStatus.available then
      .error .listingNotAvailable
    else if listing.seller_id = buyerId then
      .error .cannotPurchaseOwnListing
    else
      let order : Order :=
        { id := newOrderId
          buyer_id := buyerId
          listing_id := listing_id
          total_cents := listing.price_cents
          currency := listing.currency
          status := .pending
          expires_at := none
          created_at := now
          updated_at := now }
      let intentRef := "pi_" ++ toString order.id
      let tx : Transaction :=
        { order_id := order.id
          provider_ref := intentRef
          amount_cents := order.total_cents
          status := .initiated }
      .ok ({ client_secret := intentRef ++ "_secret_mock", order_id := order.id },
           { db with orders := db.orders ++ [order],
                     transactions := db.transactions ++ [tx] })

/-- Modelled from the spec: `handleStripeWebhook` / `confirmPayment` is only
a placeholder declaration in the source (both `src/unnamed/part_007` and
`src/server/src/handlers/checkout.ts` return `Promise.resolve()` with a
comment), so the transition is taken from spec section 4.1: if the
transaction identified by the provider event is already `succeeded` the
call is an `AlreadyProcessed` no-op; on first application it sets the
transaction status to `succeeded`, the order status to `paid`, the order's
`expires_at` to now + 24h, and the listing status to `sold` (without
re-checking availability: a racing sale is honored, per the spec). -/
def confirmPayment (db : DB) (providerEventRef : String) (orderId : Nat)
    (now : Nat) : ConfirmResult × DB :=
  match db.transactions.find?
      (fun t => decide (t.order_id = orderId ∧ t.provider_ref = providerEventRef)) with
  | none => (.notFound, db)
  | some tx =>
    if tx.status = TransactionStatus.succeeded then
      (.alreadyProcessed, db)
    else
      match db.orders.find? (fun o => decide (o.id = orderId)) with
      | none => (.notFound, db)
      | some o =>
        (.applied,
         { db with
            transactions := db.transactions.map (fun t =>
              if t.order_id = orderId ∧ t.provider_ref = providerEventRef then
                { t with status := .succeeded }
              else t)
            orders := db.orders.map (fun x =>
              if x.id = orderId then
                { x with status := .paid, expires_at := some (now + 24),
                         updated_at := now }
              else x)
            listings := db.listings.map (fun l =>
              if l.id = o.listing_id then
                { l with status := .sold, updated_at := now }
              else l) })

/-- Embeds `getOrder` of `src/server/src/handlers/orders.ts`: joins the
order with its listing and (left) secure payload, denies access unless the
caller is admin, the order's buyer or the listing's seller, and attaches
the placeholder credential string exactly when the caller is the buyer,
the order status is paid, delivered or complete, and a secure payload row
exists for the listing. -/
def getOrder (db : DB) (orderId userId : Nat) (userRole : Role) :
    Except Err OrderResponse :=
  match db.orders.find? (fun o => decide (o.id = orderId)) with
  | none => .error .orderNotFound
  | some o =>
    match db.listings.find? (fun l => decide (l.id = o.listing_id)) with
    | none => .error .orderNotFound
    | some listing =>
      let payloadRow :=
        db.securePayloads.find? (fun p => decide (p.listing_id = listing.id))
      let isAdmin := userRole = Role.admin
      let isBuyer := o.buyer_id = userId
      let isSeller := listing.seller_id = userId
      if ¬ (isAdmin ∨ isBuyer ∨ isSeller) then
        .error .accessDenied
      else
        let creds : Option String :=
          if isBuyer ∧ (o.status = OrderStatus.paid ∨
                        o.status = OrderStatus.delivered ∨
                        o.status = OrderStatus.complete) then
            match payloadRow with
            | some _ =>
              some ("[ENCRYPTED_CREDENTIALS_FOR_LISTING_" ++ toString listing.id ++ "]")
            | none => none
          else none
        .ok { id := o.id
              buyer_id := o.buyer_id
              listing_id := o.listing_id
              total_cents := o.total_cents
              currency := o.currency
              status := o.status
              expires_at := o.expires_at
              created_at := o.created_at
              updated_at := o.updated_at
              decryptedCredentials := creds }

/-- Embeds `acknowledgeDelivery` of `src/server/src/handlers/orders.ts`:
the select filters on order id and buyer id together (a missing order and
a foreign caller raise the same error), requires status `paid`, and on
success sets status `delivered` and `expires_at` to 24 hours after the
acknowledgment time. -/
def acknowledgeDelivery (db : DB) (orderId buyerId now : Nat) :
    Except Err DB :=
  match db.orders.find? (fun o => decide (o.id = orderId ∧ o.buyer_id = buyerId)) with
  | none => .error .orderNotFoundOrAccessDenied
  | some o =>
    if ¬ o.status = OrderStatus.paid then
      .error .orderMustBePaidToAcknowledge
    else
      .ok { db with orders := db.orders.map (fun x =>
              if x.id = orderId then
                { x with status := .delivered, expires_at := some (now + 24),
                         updated_at := now }
              else x) }

/-- Embeds `openDispute` of `src/server/src/handlers/admin.ts`: joins the
order with its listing, requires the opener to be the buyer or seller,
then rejects when any dispute row already exists for the order (this check
comes before the status check), then requires status `paid` or `delivered`;
on success inserts an `open` dispute and flips the order to `disputed`.
`newDisputeId` stands for the database-generated id of the new row. -/
def openDispute (db : DB) (orderId : Nat) (reason : String) (userId : Nat)
    (newDisputeId now : Nat) : Except Err (Dispute × DB) :=
  match db.orders.find? (fun o => decide (o.id = orderId)) with
  | none => .error .orderNotFound
  | some o =>
    match db.listings.find? (fun l => decide (l.id = o.listing_id)) with
    | none => .error .orderNotFound
    | some listing =>
      if ¬ (o.buyer_id = userId ∨ listing.seller_id = userId) then
        .error .onlyParticipantsCanOpenDisputes
      else if (db.disputes.find? (fun d => decide (d.order_id = orderId))).isSome then
        .error .disputeAlreadyExists
      else if ¬ (o.status = OrderStatus.paid ∨ o.status = OrderStatus.delivered) then
        .error .disputesOnlyForPaidOrDelivered
      else
        let d : Dispute :=
          { id := newDisputeId
            order_id := orderId
            opener_id := userId
            reason := reason
            status := .open_
            created_at := now
            updated_at := now }
        .ok (d, { db with
                   disputes := db.disputes ++ [d]
                   orders := db.orders.map (fun x =>
                     if x.id = orderId then
                       { x with status := .disputed, updated_at := now }
                     else x) })

/-- Embeds `resolveDispute` of `src/server/src/handlers/admin.ts`: requires
an admin caller, looks the dispute up by order id, requires it to be
`open`; resolutions `buyer` and `refund` set the dispute to `refunded` and
the order to `refunded`, resolution `seller` sets the dispute to
`resolved_seller` and the order to `complete`. -/
def resolveDispute (db : DB) (orderId : Nat) (resolution : Resolution)
    (adminId now : Nat) : Except Err DB :=
  match db.users.find? (fun u => decide (u.id = adminId)) with
  | none => .error .onlyAdminsCanResolveDisputes
  | some admin =>
    if ¬ admin.role = Role.admin then
      .error .onlyAdminsCanResolveDisputes
    else
      match db.disputes.find? (fun d => decide (d.order_id = orderId)) with
      | none => .error .disputeNotFound
      | some dispute =>
        if ¬ dispute.status = DisputeStatus.open_ then
          .error .disputeNotOpen
        else
          let disputeStatus : DisputeStatus :=
            if resolution = Resolution.buyer ∨ resolution = Resolution.refund then
              .refunded
            else .resolved_seller
          let orderStatus : OrderStatus :=
            if resolution = Resolution.buyer ∨ resolution = Resolution.refund then
              .refunded
            else .complete
          .ok { db with
                 disputes := db.disputes.map (fun d =>
                   if d.id = dispute.id then
                     { d with status := disputeStatus, updated_at := now }
                   else d)
                 orders := db.orders.map (fun x =>
                   if x.id = orderId then
                     { x with status := orderStatus, updated_at := now }
                   else x) }

/-- Embeds `getMyBalance` of `src/unnamed/part_003`: `available_cents` is
the sum of `total_cents` over orders joined to a listing of the seller
with order status `complete`; `pending_cents` the same with status
`delivered`. No payout rows are consulted. -/
def getMyBalance (db : DB) (sellerId : Nat) : BalanceResponse :=
  let ofStatus : OrderStatus → Int := fun st =>
    ((db.orders.filter (fun o =>
        match db.listings.find? (fun l => decide (l.id = o.listing_id)) with
        | some l => decide (l.seller_id = sellerId ∧ o.status = st)
        | none => false)).map Order.total_cents).sum
  { available_cents := ofStatus .complete
    pending_cents := ofStatus .delivered }

/-- Written from the spec's words (section 4.4), for comparison with
`getMyBalance`: `available_cents` additionally subtracts the sum of the
seller's non-failed (requested, processing or paid) payout amounts. -/
def specBalance (db : DB) (sellerId : Nat) : BalanceResponse :=
  let ofStatus : OrderStatus → Int := fun st =>
    ((db.orders.filter (fun o =>
        match db.listings.find? (fun l => decide (l.id = o.listing_id)) with
        | some l => decide (l.seller_id = sellerId ∧ o.status = st)
        | none => false)).map Order.total_cents).sum
  let payoutSum : Int :=
    ((db.payouts.filter (fun p =>
        decide (p.seller_id = sellerId ∧ ¬ p.status = PayoutStatus.failed))).map
      Payout.amount_cents).sum
  { available_cents := ofStatus .complete - payoutSum
    pending_cents := ofStatus .delivered }

/-- Embeds `upsertListing` of `src/unnamed/part_003`: validates the
category; with an id it verifies ownership and updates title, description,
category and price (not status, currency or the payload flag); without an
id it inserts a fresh listing with currency USD, status `available` and no
secure payload. `newId` stands for the database-generated id. -/
def upsertListing (db : DB) (idOpt : Option Nat) (category_id : Nat)
    (title description : String) (price_cents : Int) (sellerId newId now : Nat) :
    Except Err (Listing × DB) :=
  if ¬ category_id ∈ db.categories then
    .error .categoryNotFound
  else
    match idOpt with
    | some lid =>
      match db.listings.find? (fun l => decide (l.id = lid ∧ l.seller_id = sellerId)) with
      | none => .error .listingNotFoundOrAccessDenied
      | some l0 =>
        let upd : Listing → Listing := fun l =>
          if l.id = lid then
            { l with title := title, description := description,
                     category_id := category_id, price_cents := price_cents,
                     updated_at := now }
          else l
        .ok (upd l0, { db with listings := db.listings.map upd })
    | none =>
      let l : Listing :=
        { id := newId
          seller_id := sellerId
          category_id := category_id
          title := title
          description := description
          price_cents := price_cents
          currency := "USD"
          status := .available
          has_secure_payload := false
          created_at := now
          updated_at := now }
      .ok (l, { db with listings := db.listings ++ [l] })

/-- Embeds `setListingStatus` of `src/unnamed/part_003`: verifies
ownership, rejects a manual transition to `sold`, and otherwise writes the
requested status. -/
def setListingStatus (db : DB) (listing_id : Nat) (status : ListingStatus)
    (sellerId now : Nat) : Except Err DB :=
  match db.listings.find? (fun l => decide (l.id = listing_id ∧ l.seller_id = sellerId)) with
  | none => .error .listingNotFoundOrAccessDenied
  | some _ =>
    if status = ListingStatus.sold then
      .error .cannotManuallySetSold
    else
      .ok { db with listings := db.listings.map (fun l =>
              if l.id = listing_id then
                { l with status := status, updated_at := now }
              else l) }

/-- Embeds `setListingPayload` of `src/unnamed/part_003`: verifies
ownership, encrypts the plaintext with a key and nonce freshly drawn
inside the call (here passed as the arguments `key` and `nonce`, with the
cipher abstracted as the function `enc`), deletes any prior payload row
for the listing, stores a row holding only the ciphertext and the nonce,
and marks the listing as having a secure payload. The key is not part of
the stored row. -/
def setListingPayload (enc : String → String → String → String) (db : DB)
    (listing_id sellerId : Nat) (plaintext key nonce : String) (now : Nat) :
    Except Err DB :=
  match db.listings.find? (fun l => decide (l.id = listing_id ∧ l.seller_id = sellerId)) with
  | none => .error .listingNotFoundOrAccessDenied
  | some _ =>
    .ok { db with
           securePayloads :=
             (db.securePayloads.filter (fun p => decide (¬ p.listing_id = listing_id)))
               ++ [{ listing_id := listing_id
                     cipher_text := enc key nonce plaintext
                     nonce := nonce }]
           listings := db.listings.map (fun l =>
             if l.id = listing_id then
               { l with has_secure_payload := true, updated_at := now }
             else l) }

/-- Concrete database for the order-creation scenario: one available
listing priced 1999 owned by seller 2, and a buyer 3 distinct from the
seller. -/
def createDb : DB :=
  { users := []
    categories := [1]
    listings := [{ id := 10, seller_id := 2, category_id := 1,
                   title := "acc", description := "d", price_cents := 1999,
                   currency := "USD", status := .available,
                   has_secure_payload := false, created_at := 0, updated_at := 0 }]
    securePayloads := []
    orders := []
    transactions := []
    disputes := []
    payouts := [] }

/-- Concrete database for the payment-confirmation scenario: an available
listing, a pending order on it and an initiated transaction. -/
def paymentDb : DB :=
  { users := []
    categories := [1]
    listings := [{ id := 10, seller_id := 2, category_id := 1,
                   title := "acc", description := "d", price_cents := 1999,
                   currency := "USD", status := .available,
                   has_secure_payload := false, created_at := 0, updated_at := 0 }]
    securePayloads := []
    orders := [{ id := 1, buyer_id := 3, listing_id := 10, total_cents := 1999,
                 currency := "USD", status := .pending, expires_at := none,
                 created_at := 0, updated_at := 0 }]
    transactions := [{ order_id := 1, provider_ref := "pi_1",
                       amount_cents := 1999, status := .initiated }]
    disputes := []
    payouts := [] }

/-- Concrete database for the replayed-webhook scenario, with the same
rows as `paymentDb` (kept separate so each claim has its own fixture). -/
def replayDb : DB :=
  { users := []
    categories := [1]
    listings := [{ id := 10, seller_id := 2, category_id := 1,
                   title := "acc", description := "d", price_cents := 1999,
                   currency := "USD", status := .available,
                   has_secure_payload := false, created_at := 0, updated_at := 0 }]
    securePayloads := []
    orders := [{ id := 1, buyer_id := 3, listing_id := 10, total_cents := 1999,
                 currency := "USD", status := .pending, expires_at := none,
                 created_at := 0, updated_at := 0 }]
    transactions := [{ order_id := 1, provider_ref := "pi_1",
                       amount_cents := 1999, status := .initiated }]
    disputes := []
    payouts := [] }

/-- Concrete database for the credential-disclosure boundary cases: a paid
order by buyer 3 on a listing of seller 2 that has a secure payload, and a
stranger with id 99. -/
def disclosureDb : DB :=
  { users := []
    categories := [1]
    listings := [{ id := 10, seller_id := 2, category_id := 1,
                   title := "acc", description := "d", price_cents := 1999,
                   currency := "USD", status := .sold,
                   has_secure_payload := true, created_at := 0, updated_at := 0 }]
    securePayloads := [{ listing_id := 10, cipher_text := "ct", nonce := "n" }]
    orders := [{ id := 1, buyer_id := 3, listing_id := 10, total_cents := 1999,
                 currency := "USD", status := .paid, expires_at := some 24,
                 created_at := 0, updated_at := 0 }]
    transactions := []
    disputes := []
    payouts := [] }

/-- Concrete database for the dispute-precedence counterexample: order 1 is
`complete` and already carries a `resolved_seller` dispute. -/
def disputePrecedenceDb : DB :=
  { users := []
    categories := [1]
    listings := [{ id := 10, seller_id := 2, category_id := 1,
                   title := "acc", description := "d", price_cents := 1999,
                   currency := "USD", status := .sold,
                   has_secure_payload := false, created_at := 0, updated_at := 0 }]
    securePayloads := []
    orders := [{ id := 1, buyer_id := 3, listing_id := 10, total_cents := 1999,
                 currency := "USD", status := .complete, expires_at := none,
                 created_at := 0, updated_at := 0 }]
    transactions := []
    disputes := [{ id := 5, order_id := 1, opener_id := 3, reason := "r",
                   status := .resolved_seller, created_at := 0, updated_at := 0 }]
    payouts := [] }

/-- Concrete database for opening a dispute: a paid order with no dispute
yet. -/
def openDisputeDb : DB :=
  { users := []
    categories := [1]
    listings := [{ id := 10, seller_id := 2, category_id := 1,
                   title := "acc", description := "d", price_cents := 1999,
                   currency := "USD", status := .sold,
                   has_secure_payload := false, created_at := 0, updated_at := 0 }]
    securePayloads := []
    orders := [{ id := 1, buyer_id := 3, listing_id := 10, total_cents := 1999,
                 currency := "USD", status := .paid, expires_at := some 24,
                 created_at := 0, updated_at := 0 }]
    transactions := []
    disputes := []
    payouts := [] }

/-- Concrete database for resolving a dispute: an admin user 7, a disputed
order 1 and its open dispute 5. -/
def resolveDb : DB :=
  { users := [{ id := 7, role := .admin }]
    categories := [1]
    listings := [{ id := 10, seller_id := 2, category_id := 1,
                   title := "acc", description := "d", price_cents := 1999,
                   currency := "USD", status := .sold,
                   has_secure_payload := false, created_at := 0, updated_at := 0 }]
    securePayloads := []
    orders := [{ id := 1, buyer_id := 3, listing_id := 10, total_cents := 1999,
                 currency := "USD", status := .disputed, expires_at := none,
                 created_at := 0, updated_at := 0 }]
    transactions := []
    disputes := [{ id := 5, order_id := 1, opener_id := 3, reason := "r",
                   status := .open_, created_at := 0, updated_at := 0 }]
    payouts := [] }

/-- Concrete database for the balance computation: seller 1 has one
`complete` order worth 1000 cents and one non-failed payout of 400
cents. -/
def balanceDb : DB :=
  { users := []
    categories := [1]
    listings := [{ id := 10, seller_id := 1, category_id := 1,
                   title := "acc", description := "d", price_cents := 1000,
                   currency := "USD", status := .sold,
                   has_secure_payload := false, created_at := 0, updated_at := 0 }]
    securePayloads := []
    orders := [{ id := 1, buyer_id := 3, listing_id := 10, total_cents := 1000,
                 currency := "USD", status := .complete, expires_at := none,
                 created_at := 0, updated_at := 0 }]
    transactions := []
    disputes := []
    payouts := [{ id := 20, seller_id := 1, amount_cents := 400,
                  status := .requested, provider_ref := none }]}

/-- Concrete database for the delivery-acknowledgment scenario: a paid
order by buyer 3 whose expiry still holds the payment-time window. -/
def deliveryDb : DB :=
  { users := []
    categories := [1]
    listings := [{ id := 10, seller_id := 2, category_id := 1,
                   title := "acc", description := "d", price_cents := 1999,
                   currency := "USD", status := .sold,
                   has_secure_payload := false, created_at := 0, updated_at := 0 }]
    securePayloads := []
    orders := [{ id := 1, buyer_id := 3, listing_id := 10, total_cents := 1999,
                 currency := "USD", status := .paid, expires_at := some 24,
                 created_at := 0, updated_at := 0 }]
    transactions := []
    disputes := []
    payouts := [] }

/-- Concrete database for the seller-listing operations: category 1 exists
and seller 2 owns one available listing. -/
def sellerDb : DB :=
  { users := []
    categories := [1]
    listings := [{ id := 10, seller_id := 2, category_id := 1,
                   title := "acc", description := "d", price_cents := 1999,
                   currency := "USD", status := .available,
                   has_secure_payload := false, created_at := 0, updated_at := 0 }]
    securePayloads := []
    orders := []
    transactions := []
    disputes := []
    payouts := [] }

/-- Concrete database for the payload-secrecy scenario: seller 2 owns
listing 10, and buyer 3 has a paid order on it. -/
def vaultDb : DB :=
  { users := []
    categories := [1]
    listings := [{ id := 10, seller_id := 2, category_id := 1,
                   title := "acc", description := "d", price_cents := 1999,
                   currency := "USD", status := .sold,
                   has_secure_payload := false, created_at := 0, updated_at := 0 }]
    securePayloads := []
    orders := [{ id := 1, buyer_id := 3, listing_id := 10, total_cents := 1999,
                 currency := "USD", status := .paid, expires_at := some 24,
                 created_at := 0, updated_at := 0 }]
    transactions := []
    disputes := []
    payouts := [] }

/-- A concrete cipher standing in for AES-GCM in the payload-secrecy
witness: key, nonce and plaintext concatenated. -/
def encCat : String → String → String → String := fun k n p => k ++ n ++ p

/-- The database after storing the first payload on `vaultDb`. -/
def vaultDb1 : DB :=
  { vaultDb with
     securePayloads := [{ listing_id := 10, cipher_text := "K1N1alpha",
                          nonce := "N1" }]
     listings := [{ id := 10, seller_id := 2, category_id := 1,
                    title := "acc", description := "d", price_cents := 1999,
                    currency := "USD", status := .sold,
                    has_secure_payload := true, created_at := 0,
                    updated_at := 5 }] }

/-- The database after storing the second payload on `vaultDb`. -/
def vaultDb2 : DB :=
  { vaultDb with
     securePayloads := [{ listing_id := 10, cipher_text := "K2N2beta",
                          nonce := "N2" }]
     listings := [{ id := 10, seller_id := 2, category_id := 1,
                    title := "acc", description := "d", price_cents := 1999,
                    currency := "USD", status := .sold,
                    has_secure_payload := true, created_at := 0,
                    updated_at := 5 }] }

/-- A `find?` over a list mapped by a row update that does not change the
field the search predicate looks at returns the updated image of the
original hit. -/
theorem find?_map_pres {α : Type} (f : α → α) (p : α → Bool) (l : List α)
    (h : ∀ a, p (f a) = p a) : (l.map f).find? p = (l.find? p).map f := by
  induction l with
  | nil => rfl
  | cons a t ih =>
    cases hp : p a with
    | true =>
      rw [List.map_cons, List.find?_cons_of_pos _ ((h a).trans hp),
        List.find?_cons_of_pos _ hp]
      rfl
    | false =>
      rw [List.map_cons,
        List.find?_cons_of_neg _ (by rw [h a, hp]; exact Bool.false_ne_true),
        List.find?_cons_of_neg _ (by rw [hp]; exact Bool.false_ne_true), ih]

/-- C8: for every checkout request, order creation fails with `Listing not
found` if the listing is absent, with `Listing is not available` if its
status is not `available`, with `Cannot purchase your own listing` if the
buyer is the seller, and otherwise creates a `pending` order at the
listing's price and currency together with an `initiated` transaction,
leaving the listings table (and so the listing's status) unchanged. -/
theorem createPaymentIntent_characterization (db : DB) (lid buyerId newId now : Nat) :
    (db.listings.find? (fun l => decide (l.id = lid)) = none →
      createPaymentIntent db lid buyerId newId now = .error .listingNotFound) ∧
    (∀ l, db.listings.find? (fun x => decide (x.id = lid)) = some l →
      (¬ l.status = ListingStatus.available →
        createPaymentIntent db lid buyerId newId now = .error .listingNotAvailable) ∧
      (l.status = ListingStatus.available → l.seller_id = buyerId →
        createPaymentIntent db lid buyerId newId now = .error .cannotPurchaseOwnListing) ∧
      (l.status = ListingStatus.available → ¬ l.seller_id = buyerId →
        createPaymentIntent db lid buyerId newId now = .ok
          ({ client_secret := "pi_" ++ toString newId ++ "_secret_mock",
             order_id := newId },
           { db with
              orders := db.orders ++
                [{ id := newId, buyer_id := buyerId, listing_id := lid,
                   total_cents := l.price_cents, currency := l.currency,
                   status := .pending, expires_at := none,
                   created_at := now, updated_at := now }],
              transactions := db.transactions ++
                [{ order_id := newId, provider_ref := "pi_" ++ toString newId,
                   amount_cents := l.price_cents, status := .initiated }] }))) := by
  constructor
  · intro h
    simp only [createPaymentIntent, h]
  · intro l h
    refine ⟨fun hs => ?_, fun hs hb => ?_, fun hs hb => ?_⟩
    · simp [createPaymentIntent, h, hs]
    · simp [createPaymentIntent, h, hs, hb]
    · simp [createPaymentIntent, h, hs, hb]

/-- Witness for C8: the success branch on the concrete `createDb`. -/
theorem createPaymentIntent_characterization_witness :
    createPaymentIntent createDb 10 3 1 5 = .ok
      ({ client_secret := "pi_1_secret_mock", order_id := 1 },
       { createDb with
          orders := [{ id := 1, buyer_id := 3, listing_id := 10,
                       total_cents := 1999, currency := "USD",
                       status := .pending, expires_at := none,
                       created_at := 5, updated_at := 5 }],
          transactions := [{ order_id := 1, provider_ref := "pi_1",
                             amount_cents := 1999, status := .initiated }] }) :=
  ((createPaymentIntent_characterization createDb 10 3 1 5).2 _ rfl).2.2
    rfl (by decide)

/-- C1: a payment-success webhook event applied to an order whose
transaction has not yet succeeded sets the transaction status to
`succeeded`, the order status to `paid`, the order's `expires_at` to
now + 24 hours, and the listing status to `sold`. -/
theorem confirmPayment_first_application (db : DB) (ref : String)
    (oid now : Nat) (tx : Transaction) (o : Order) (l : Listing)
    (htx : db.transactions.find?
      (fun t => decide (t.order_id = oid ∧ t.provider_ref = ref)) = some tx)
    (hnot : ¬ tx.status = TransactionStatus.succeeded)
    (ho : db.orders.find? (fun x => decide (x.id = oid)) = some o)
    (hl : db.listings.find? (fun x => decide (x.id = o.listing_id)) = some l) :
    ∃ db', confirmPayment db ref oid now = (.applied, db') ∧
      db'.transactions.find?
        (fun t => decide (t.order_id = oid ∧ t.provider_ref = ref)) =
        some { tx with status := .succeeded } ∧
      db'.orders.find? (fun x => decide (x.id = oid)) =
        some { o with status := .paid, expires_at := some (now + 24),
                      updated_at := now } ∧
      db'.listings.find? (fun x => decide (x.id = o.listing_id)) =
        some { l with status := .sold, updated_at := now } := by
  have hstep : confirmPayment db ref oid now =
      (.applied,
       { db with
          transactions := db.transactions.map (fun t =>
            if t.order_id = oid ∧ t.provider_ref = ref then
              { t with status := .succeeded } else t)
          orders := db.orders.map (fun x =>
            if x.id = oid then
              { x with status := .paid, expires_at := some (now + 24),
                       updated_at := now } else x)
          listings := db.listings.map (fun y =>
            if y.id = o.listing_id then
              { y with status := .sold, updated_at := now } else y) }) := by
    simp only [confirmPayment, htx, ho]
    rw [if_neg hnot]
  refine ⟨_, hstep, ?_, ?_, ?_⟩
  · show List.find? _ (List.map _ db.transactions) = _
    rw [find?_map_pres _ _ _ (fun a => by
      by_cases hca : a.order_id = oid ∧ a.provider_ref = ref <;> simp [hca]), htx]
    have hc := List.find?_some htx
    simp only [decide_eq_true_eq] at hc
    simp [hc]
  · show List.find? _ (List.map _ db.orders) = _
    rw [find?_map_pres _ _ _ (fun a => by
      by_cases hca : a.id = oid <;> simp [hca]), ho]
    have hc := List.find?_some ho
    simp only [decide_eq_true_eq] at hc
    simp [hc]
  · show List.find? _ (List.map _ db.listings) = _
    rw [find?_map_pres _ _ _ (fun a => by
      by_cases hca : a.id = o.listing_id <;> simp [hca]), hl]
    have hc := List.find?_some hl
    simp only [decide_eq_true_eq] at hc
    simp [hc]

/-- Witness for C1: first confirmation on the concrete `paymentDb`. -/
theorem confirmPayment_first_application_witness :
    ∃ db', confirmPayment paymentDb "pi_1" 1 100 = (.applied, db') ∧
      db'.transactions.find?
        (fun t => decide (t.order_id = 1 ∧ t.provider_ref = "pi_1")) =
        some { order_id := 1, provider_ref := "pi_1", amount_cents := 1999,
               status := .succeeded } ∧
      db'.orders.find? (fun x => decide (x.id = 1)) =
        some { id := 1, buyer_id := 3, listing_id := 10, total_cents := 1999,
               currency := "USD", status := .paid, expires_at := some 124,
               created_at := 0, updated_at := 100 } ∧
      db'.listings.find? (fun x => decide (x.id = 10)) =
        some { id := 10, seller_id := 2, category_id := 1, title := "acc",
               description := "d", price_cents := 1999, currency := "USD",
               status := .sold, has_secure_payload := false,
               created_at := 0, updated_at := 100 } :=
  confirmPayment_first_application paymentDb "pi_1" 1 100 _ _ _
    rfl (by decide) rfl rfl

/-- C2: delivering the same provider webhook event twice changes state
exactly once — after a first delivery that applies the transition, the
second delivery on the resulting database is an `AlreadyProcessed` no-op
that returns the database unchanged. -/
theorem confirmPayment_idempotent (db db1 : DB) (ref : String)
    (oid now now' : Nat)
    (h : confirmPayment db ref oid now = (.applied, db1)) :
    confirmPayment db1 ref oid now' = (.alreadyProcessed, db1) := by
  unfold confirmPayment at h
  cases htx : db.transactions.find?
      (fun t => decide (t.order_id = oid ∧ t.provider_ref = ref)) with
  | none => rw [htx] at h; simp at h
  | some tx =>
    rw [htx] at h
    by_cases hs : tx.status = TransactionStatus.succeeded
    · simp [hs] at h
    · cases ho : db.orders.find? (fun x => decide (x.id = oid)) with
      | none => rw [ho] at h; simp [hs] at h
      | some o =>
        rw [ho] at h
        simp only [if_neg hs] at h
        have hdb : db1 =
            { db with
               transactions := db.transactions.map (fun t =>
                 if t.order_id = oid ∧ t.provider_ref = ref then
                   { t with status := .succeeded } else t)
               orders := db.orders.map (fun x =>
                 if x.id = oid then
                   { x with status := .paid, expires_at := some (now + 24),
                            updated_at := now } else x)
               listings := db.listings.map (fun y =>
                 if y.id = o.listing_id then
                   { y with status := .sold, updated_at := now } else y) } := by
          have := congrArg Prod.snd h
          simpa using this.symm
        have htx1 : db1.transactions.find?
            (fun t => decide (t.order_id = oid ∧ t.provider_ref = ref)) =
            some { tx with status := .succeeded } := by
          rw [hdb]
          show List.find? _ (List.map _ db.transactions) = _
          rw [find?_map_pres _ _ _ (fun a => by
            by_cases hca : a.order_id = oid ∧ a.provider_ref = ref <;> simp [hca]), htx]
          have hc := List.find?_some htx
          simp only [decide_eq_true_eq] at hc
          simp [hc]
        unfold confirmPayment
        rw [htx1]
        rfl

/-- Witness for C2: the replayed webhook on the concrete `replayDb`. -/
theorem confirmPayment_idempotent_witness :
    confirmPayment (confirmPayment replayDb "pi_1" 1 100).2 "pi_1" 1 200 =
      (.alreadyProcessed, (confirmPayment replayDb "pi_1" 1 100).2) :=
  confirmPayment_idempotent replayDb _ "pi_1" 1 100 200 rfl

/-- C7: acknowledging delivery fails when no order row matches the order id
and the caller as buyer (in particular whenever every order with that id
has a different buyer), fails with an invalid-state error unless the order
is `paid`, and on success sets the status to `delivered` and the expiry to
24 hours after the acknowledgment time `now`, whatever the previous
`expires_at` was. -/
theorem acknowledgeDelivery_characterization (db : DB) (oid buyerId now : Nat) :
    ((∀ x ∈ db.orders, x.id = oid → ¬ x.buyer_id = buyerId) →
      acknowledgeDelivery db oid buyerId now = .error .orderNotFoundOrAccessDenied) ∧
    (∀ o, db.orders.find? (fun x => decide (x.id = oid ∧ x.buyer_id = buyerId)) = some o →
      (¬ o.status = OrderStatus.paid →
        acknowledgeDelivery db oid buyerId now = .error .orderMustBePaidToAcknowledge) ∧
      (o.status = OrderStatus.paid →
        ∃ db', acknowledgeDelivery db oid buyerId now = .ok db' ∧
          db'.orders.find? (fun x => decide (x.id = oid ∧ x.buyer_id = buyerId)) =
            some { o with status := .delivered, expires_at := some (now + 24),
                          updated_at := now })) := by
  constructor
  · intro hnone
    have hfind : db.orders.find?
        (fun x => decide (x.id = oid ∧ x.buyer_id = buyerId)) = none := by
      rw [List.find?_eq_none]
      intro x hx
      simp only [decide_eq_true_eq, not_and]
      exact hnone x hx
    simp only [acknowledgeDelivery, hfind]
  · intro o ho
    have hc := List.find?_some ho
    simp only [decide_eq_true_eq] at hc
    refine ⟨fun hs => ?_, fun hs => ?_⟩
    · simp only [acknowledgeDelivery, ho]
      rw [if_pos hs]
    · refine ⟨{ db with orders := db.orders.map (fun x =>
          if x.id = oid then
            { x with status := .delivered, expires_at := some (now + 24),
                     updated_at := now } else x) }, ?_, ?_⟩
      · simp only [acknowledgeDelivery, ho]
        rw [if_neg (by simp [hs])]
      · show List.find? _ (List.map _ db.orders) = _
        rw [find?_map_pres _ _ _ (fun a => by
          by_cases hca : a.id = oid <;> simp [hca]), ho]
        simp [hc.1]

/-- Witness for C7: the concrete acknowledgment on `deliveryDb`, whose
prior expiry was 24 and whose new expiry counts from the acknowledgment
time 30. -/
theorem acknowledgeDelivery_characterization_witness :
    ∃ db', acknowledgeDelivery deliveryDb 1 3 30 = .ok db' ∧
      db'.orders.find? (fun x => decide (x.id = 1 ∧ x.buyer_id = 3)) =
        some { id := 1, buyer_id := 3, listing_id := 10, total_cents := 1999,
               currency := "USD", status := .delivered, expires_at := some 54,
               created_at := 0, updated_at := 30 } :=
  ((acknowledgeDelivery_characterization deliveryDb 1 3 30).2 _ rfl).2 rfl

/-- C3 counterexample: on `disclosureDb` the paid order queried by the
stranger 99 (neither buyer 3, seller 2 nor an admin) raises `Access
denied` instead of returning the order with the credential field absent. -/
theorem getOrder_stranger_raises :
    getOrder disclosureDb 1 99 Role.buyer = .error .accessDenied := by
  rfl

/-- C3 amended: for an order joined to its listing, `getOrder` raises
`Access denied` for a caller that is neither admin, the buyer nor the
seller; every caller with access receives the order, and the credential
field is present iff the caller is the buyer, the order status is paid,
delivered or complete, and a secure payload row exists for the listing —
in which case it is the placeholder string for the listing id. -/
theorem getOrder_credential_disclosure (db : DB) (oid uid : Nat) (role : Role)
    (o : Order) (l : Listing)
    (ho : db.orders.find? (fun x => decide (x.id = oid)) = some o)
    (hl : db.listings.find? (fun x => decide (x.id = o.listing_id)) = some l) :
    (¬ (role = Role.admin ∨ o.buyer_id = uid ∨ l.seller_id = uid) →
      getOrder db oid uid role = .error .accessDenied) ∧
    ((role = Role.admin ∨ o.buyer_id = uid ∨ l.seller_id = uid) →
      ∃ resp, getOrder db oid uid role = .ok resp ∧
        (¬ resp.decryptedCredentials = none ↔
          (o.buyer_id = uid ∧
           (o.status = OrderStatus.paid ∨ o.status = OrderStatus.delivered ∨
            o.status = OrderStatus.complete) ∧
           (db.securePayloads.find? (fun p => decide (p.listing_id = l.id))).isSome)) ∧
        (∀ s, resp.decryptedCredentials = some s →
          s = "[ENCRYPTED_CREDENTIALS_FOR_LISTING_" ++ toString l.id ++ "]")) := by
  constructor
  · intro hno
    simp only [getOrder, ho, hl]
    rw [if_pos hno]
  · intro hyes
    simp only [getOrder, ho, hl]
    rw [if_neg (not_not_intro hyes)]
    refine ⟨_, rfl, ?_, ?_⟩
    · by_cases hb : o.buyer_id = uid ∧
          (o.status = OrderStatus.paid ∨ o.status = OrderStatus.delivered ∨
           o.status = OrderStatus.complete)
      · rw [if_pos hb]
        cases hp : db.securePayloads.find? (fun p => decide (p.listing_id = l.id)) with
        | some p => simp [hb]
        | none => simp [hb]
      · rw [if_neg hb]
        exact iff_of_false (fun h => h rfl) (fun hcond => hb ⟨hcond.1, hcond.2.1⟩)
    · intro s hsome
      by_cases hb : o.buyer_id = uid ∧
          (o.status = OrderStatus.paid ∨ o.status = OrderStatus.delivered ∨
           o.status = OrderStatus.complete)
      · rw [if_pos hb] at hsome
        cases hp : db.securePayloads.find? (fun p => decide (p.listing_id = l.id)) with
        | some p => rw [hp] at hsome; simpa using hsome.symm
        | none => rw [hp] at hsome; cases hsome
      · rw [if_neg hb] at hsome
        cases hsome

/-- Witness for C3 amended: the buyer of the paid order on `disclosureDb`
receives a response whose credential field is present, and it is the
placeholder string for listing 10. -/
theorem getOrder_credential_disclosure_witness :
    ∃ resp, getOrder disclosureDb 1 3 Role.buyer = .ok resp ∧
      (¬ resp.decryptedCredentials = none ↔
        ((3 : Nat) = 3 ∧
         (OrderStatus.paid = OrderStatus.paid ∨
          OrderStatus.paid = OrderStatus.delivered ∨
          OrderStatus.paid = OrderStatus.complete) ∧
         (disclosureDb.securePayloads.find?
           (fun p => decide (p.listing_id = 10))).isSome)) ∧
      (∀ s, resp.decryptedCredentials = some s →
        s = "[ENCRYPTED_CREDENTIALS_FOR_LISTING_" ++ toString 10 ++ "]") :=
  (getOrder_credential_disclosure disclosureDb 1 3 Role.buyer _ _ rfl rfl).2
    (Or.inr (Or.inl rfl))

/-- C4 counterexample: on `disputePrecedenceDb` order 1 has status
`complete` and already carries a resolved dispute; the buyer's attempt to
open a new dispute fails with the duplicate-dispute (Conflict) error, not
the invalid-state error the claim predicts for a `complete` order, because
the code checks dispute existence before order status. -/
theorem openDispute_conflict_precedes_invalid_state :
    (disputePrecedenceDb.orders.find? (fun x => decide (x.id = 1))).map Order.status =
      some OrderStatus.complete ∧
    openDispute disputePrecedenceDb 1 "r" 3 6 50 = .error .disputeAlreadyExists ∧
    ¬ openDispute disputePrecedenceDb 1 "r" 3 6 50 =
        .error .disputesOnlyForPaidOrDelivered := by
  refine ⟨rfl, rfl, fun h => ?_⟩
  rw [show openDispute disputePrecedenceDb 1 "r" 3 6 50 =
    .error .disputeAlreadyExists from rfl] at h
  cases h

/-- C4 amended: `openDispute` on an order joined to its listing fails with
the participants-only error unless the opener is the buyer or the seller;
for a participant it fails with the duplicate-dispute error whenever any
dispute row for the order exists (this check precedes the status check),
then with the invalid-state error unless the status is paid or delivered,
and otherwise creates an `open` dispute and flips the order to
`disputed`. -/
theorem openDispute_characterization (db : DB) (oid : Nat) (reason : String)
    (uid nid now : Nat) (o : Order) (l : Listing)
    (ho : db.orders.find? (fun x => decide (x.id = oid)) = some o)
    (hl : db.listings.find? (fun x => decide (x.id = o.listing_id)) = some l) :
    (¬ (o.buyer_id = uid ∨ l.seller_id = uid) →
      openDispute db oid reason uid nid now = .error .onlyParticipantsCanOpenDisputes) ∧
    ((o.buyer_id = uid ∨ l.seller_id = uid) →
      ((db.disputes.find? (fun d => decide (d.order_id = oid))).isSome →
        openDispute db oid reason uid nid now = .error .disputeAlreadyExists) ∧
      (db.disputes.find? (fun d => decide (d.order_id = oid)) = none →
        (¬ (o.status = OrderStatus.paid ∨ o.status = OrderStatus.delivered) →
          openDispute db oid reason uid nid now = .error .disputesOnlyForPaidOrDelivered) ∧
        ((o.status = OrderStatus.paid ∨ o.status = OrderStatus.delivered) →
          ∃ db', openDispute db oid reason uid nid now =
            .ok ({ id := nid, order_id := oid, opener_id := uid, reason := reason,
                   status := .open_, created_at := now, updated_at := now }, db') ∧
            db'.disputes = db.disputes ++
              [{ id := nid, order_id := oid, opener_id := uid, reason := reason,
                 status := .open_, created_at := now, updated_at := now }] ∧
            db'.orders.find? (fun x => decide (x.id = oid)) =
              some { o with status := .disputed, updated_at := now }))) := by
  constructor
  · intro hno
    simp only [openDispute, ho, hl]
    rw [if_pos hno]
  · intro hyes
    constructor
    · intro hdup
      simp only [openDispute, ho, hl]
      rw [if_neg (not_not_intro hyes), if_pos hdup]
    · intro hnone
      constructor
      · intro hst
        simp only [openDispute, ho, hl]
        rw [if_neg (not_not_intro hyes),
          if_neg (by rw [hnone]; exact Bool.false_ne_true), if_pos hst]
      · intro hst
        refine ⟨{ db with
            disputes := db.disputes ++
              [{ id := nid, order_id := oid, opener_id := uid, reason := reason,
                 status := .open_, created_at := now, updated_at := now }]
            orders := db.orders.map (fun x =>
              if x.id = oid then
                { x with status := .disputed, updated_at := now } else x) },
          ?_, rfl, ?_⟩
        · simp only [openDispute, ho, hl]
          rw [if_neg (not_not_intro hyes),
            if_neg (by rw [hnone]; exact Bool.false_ne_true),
            if_neg (not_not_intro hst)]
        · show List.find? _ (List.map _ db.orders) = _
          rw [find?_map_pres _ _ _ (fun a => by
            by_cases hca : a.id = oid <;> simp [hca]), ho]
          have hc := List.find?_some ho
          simp only [decide_eq_true_eq] at hc
          simp [hc]

/-- Witness for C4 amended: the buyer opens a dispute on the paid,
dispute-free order of `openDisputeDb`. -/
theorem openDispute_characterization_witness :
    ∃ db', openDispute openDisputeDb 1 "r" 3 6 50 =
      .ok ({ id := 6, order_id := 1, opener_id := 3, reason := "r",
             status := .open_, created_at := 50, updated_at := 50 }, db') ∧
      db'.disputes = openDisputeDb.disputes ++
        [{ id := 6, order_id := 1, opener_id := 3, reason := "r",
           status := .open_, created_at := 50, updated_at := 50 }] ∧
      db'.orders.find? (fun x => decide (x.id = 1)) =
        some { id := 1, buyer_id := 3, listing_id := 10, total_cents := 1999,
               currency := "USD", status := .disputed, expires_at := some 24,
               created_at := 0, updated_at := 50 } :=
  (((openDispute_characterization openDisputeDb 1 "r" 3 6 50 _ _ rfl rfl).2
    (Or.inl rfl)).2 rfl).2 (Or.inl rfl)

/-- C5: for an admin caller and the dispute found for the order,
`resolveDispute` fails (changing nothing — an error carries no database)
once the dispute is no longer `open`; on an open dispute, resolutions
`buyer` and `refund` set the dispute to `refunded` and the order to
`refunded`, while resolution `seller` sets the dispute to
`resolved_seller` and the order to `complete`. -/
theorem resolveDispute_characterization (db : DB) (oid : Nat)
    (res : Resolution) (adminId now : Nat) (admin : User) (d : Dispute)
    (ha : db.users.find? (fun u => decide (u.id = adminId)) = some admin)
    (har : admin.role = Role.admin)
    (hd : db.disputes.find? (fun x => decide (x.order_id = oid)) = some d) :
    (¬ d.status = DisputeStatus.open_ →
      resolveDispute db oid res adminId now = .error .disputeNotOpen) ∧
    (d.status = DisputeStatus.open_ →
      ∃ db', resolveDispute db oid res adminId now = .ok db' ∧
        db'.disputes.find? (fun x => decide (x.order_id = oid)) =
          some { d with
                 status := if res = Resolution.buyer ∨ res = Resolution.refund
                           then .refunded else .resolved_seller,
                 updated_at := now } ∧
        (∀ o, db.orders.find? (fun x => decide (x.id = oid)) = some o →
          db'.orders.find? (fun x => decide (x.id = oid)) =
            some { o with
                   status := if res = Resolution.buyer ∨ res = Resolution.refund
                             then .refunded else .complete,
                   updated_at := now })) := by
  constructor
  · intro hs
    simp only [resolveDispute, ha, hd]
    rw [if_neg (not_not_intro har), if_pos hs]
  · intro hs
    refine ⟨{ db with
        disputes := db.disputes.map (fun x =>
          if x.id = d.id then
            { x with
               status := if res = Resolution.buyer ∨ res = Resolution.refund
                         then .refunded else .resolved_seller,
               updated_at := now } else x)
        orders := db.orders.map (fun x =>
          if x.id = oid then
            { x with
               status := if res = Resolution.buyer ∨ res = Resolution.refund
                         then .refunded else .complete,
               updated_at := now } else x) }, ?_, ?_, ?_⟩
    · simp only [resolveDispute, ha, hd]
      rw [if_neg (not_not_intro har), if_neg (not_not_intro hs)]
    · show List.find? _ (List.map _ db.disputes) = _
      rw [find?_map_pres _ _ _ (fun a => by
        by_cases hca : a.id = d.id <;> simp [hca]), hd]
      simp
    · intro o ho
      show List.find? _ (List.map _ db.orders) = _
      rw [find?_map_pres _ _ _ (fun a => by
        by_cases hca : a.id = oid <;> simp [hca]), ho]
      have hc := List.find?_some ho
      simp only [decide_eq_true_eq] at hc
      simp [hc]

/-- Witness for C5: admin 7 resolves the open dispute on `resolveDb` in
favour of the seller, yielding a `resolved_seller` dispute and a
`complete` order. -/
theorem resolveDispute_characterization_witness :
    ∃ db', resolveDispute resolveDb 1 Resolution.seller 7 60 = .ok db' ∧
      db'.disputes.find? (fun x => decide (x.order_id = 1)) =
        some { id := 5, order_id := 1, opener_id := 3, reason := "r",
               status := .resolved_seller, created_at := 0, updated_at := 60 } ∧
      (∀ o, resolveDb.orders.find? (fun x => decide (x.id = 1)) = some o →
        db'.orders.find? (fun x => decide (x.id = 1)) =
          some { o with status := .complete, updated_at := 60 }) :=
  (resolveDispute_characterization resolveDb 1 Resolution.seller 7 60 _ _
    rfl rfl rfl).2 rfl

/-- Mapping a row update under another map collapses when the outer
projection is unchanged by the update. -/
theorem map_comp_pres {α β : Type} (f : α → α) (g : α → β) (l : List α)
    (h : ∀ a, g (f a) = g a) : (l.map f).map g = l.map g := by
  induction l with
  | nil => rfl
  | cons a t ih => simp only [List.map_cons, h a, ih]

/-- C6: on `balanceDb` seller 1 has one `complete` order worth 1000 cents
and one non-failed payout of 400 cents; `getMyBalance` reports 1000
available cents — it never subtracts payouts — while the balance with the
subtraction the spec prescribes is 600. -/
theorem getMyBalance_ignores_payouts :
    getMyBalance balanceDb 1 = { available_cents := 1000, pending_cents := 0 } ∧
    specBalance balanceDb 1 = { available_cents := 600, pending_cents := 0 } ∧
    ¬ getMyBalance balanceDb 1 = specBalance balanceDb 1 := by
  refine ⟨rfl, rfl, ?_⟩
  intro h
  rw [show getMyBalance balanceDb 1 =
        { available_cents := 1000, pending_cents := 0 } from rfl,
      show specBalance balanceDb 1 =
        { available_cents := 600, pending_cents := 0 } from rfl] at h
  simp at h

/-- C9: no seller-side listing operation produces a `sold` status:
creation yields an `available` listing appended to the table, updating a
listing never changes any listing's status, `setListingStatus` never
succeeds when asked for `sold`, and a successful `setListingStatus` leaves
`sold` rows exactly where a `sold` row with the same id already existed. -/
theorem seller_ops_never_set_sold :
    (∀ db cat title desc price sid nid now l db',
      upsertListing db none cat title desc price sid nid now = .ok (l, db') →
      l.status = ListingStatus.available ∧ db'.listings = db.listings ++ [l]) ∧
    (∀ db lid cat title desc price sid nid now l db',
      upsertListing db (some lid) cat title desc price sid nid now = .ok (l, db') →
      db'.listings.map Listing.status = db.listings.map Listing.status) ∧
    (∀ db lid sid now db',
      ¬ setListingStatus db lid ListingStatus.sold sid now = .ok db') ∧
    (∀ db lid st sid now db',
      setListingStatus db lid st sid now = .ok db' →
      ∀ x ∈ db'.listings, x.status = ListingStatus.sold →
        ∃ y ∈ db.listings, y.id = x.id ∧ y.status = ListingStatus.sold) := by
  refine ⟨?_, ?_, ?_, ?_⟩
  · intro db cat title desc price sid nid now l db' h
    unfold upsertListing at h
    by_cases hcat : cat ∈ db.categories
    · rw [if_neg (not_not_intro hcat)] at h
      simp only [Except.ok.injEq, Prod.mk.injEq] at h
      obtain ⟨hl, hdb⟩ := h
      subst hl
      subst hdb
      exact ⟨rfl, rfl⟩
    · rw [if_pos hcat] at h
      exact Except.noConfusion h
  · intro db lid cat title desc price sid nid now l db' h
    unfold upsertListing at h
    by_cases hcat : cat ∈ db.categories
    · rw [if_neg (not_not_intro hcat)] at h
      dsimp only at h
      cases hf : db.listings.find? (fun x => decide (x.id = lid ∧ x.seller_id = sid)) with
      | none => rw [hf] at h; exact Except.noConfusion h
      | some l0 =>
        rw [hf] at h
        simp only [Except.ok.injEq, Prod.mk.injEq] at h
        obtain ⟨-, hdb⟩ := h
        subst hdb
        show (db.listings.map _).map _ = _
        exact map_comp_pres _ _ _ (fun a => by
          by_cases hca : a.id = lid <;> simp [hca])
    · rw [if_pos hcat] at h
      exact Except.noConfusion h
  · intro db lid sid now db' h
    unfold setListingStatus at h
    cases hf : db.listings.find? (fun x => decide (x.id = lid ∧ x.seller_id = sid)) with
    | none => rw [hf] at h; exact Except.noConfusion h
    | some l0 =>
      rw [hf, if_pos rfl] at h
      exact Except.noConfusion h
  · intro db lid st sid now db' h
    unfold setListingStatus at h
    cases hf : db.listings.find? (fun x => decide (x.id = lid ∧ x.seller_id = sid)) with
    | none => rw [hf] at h; exact Except.noConfusion h
    | some l0 =>
      rw [hf] at h
      by_cases hsold : st = ListingStatus.sold
      · rw [if_pos hsold] at h
        exact Except.noConfusion h
      · rw [if_neg hsold] at h
        simp only [Except.ok.injEq] at h
        subst h
        intro x hx hxs
        simp only [List.mem_map] at hx
        obtain ⟨y, hy, hyx⟩ := hx
        by_cases hid : y.id = lid
        · rw [if_pos hid] at hyx
          rw [← hyx] at hxs
          exact absurd hxs hsold
        · rw [if_neg hid] at hyx
          subst hyx
          exact ⟨y, hy, rfl, hxs⟩

/-- Witness for C9: creating a listing on `sellerDb` yields an `available`
listing appended to the listings table. -/
theorem seller_ops_never_set_sold_witness :
    ({ id := 11, seller_id := 2, category_id := 1, title := "t",
       description := "d2", price_cents := 5, currency := "USD",
       status := ListingStatus.available, has_secure_payload := false,
       created_at := 9, updated_at := 9 } : Listing).status =
      ListingStatus.available ∧
    ({ sellerDb with listings := sellerDb.listings ++
        [{ id := 11, seller_id := 2, category_id := 1, title := "t",
           description := "d2", price_cents := 5, currency := "USD",
           status := ListingStatus.available, has_secure_payload := false,
           created_at := 9, updated_at := 9 }] } : DB).listings =
      sellerDb.listings ++
        [{ id := 11, seller_id := 2, category_id := 1, title := "t",
           description := "d2", price_cents := 5, currency := "USD",
           status := ListingStatus.available, has_secure_payload := false,
           created_at := 9, updated_at := 9 }] :=
  seller_ops_never_set_sold.1 sellerDb 1 "t" "d2" 5 2 11 9 _ _ rfl

/-- Inversion of a successful `setListingPayload`: the new database keeps
everything except that the listing's payload rows are replaced by the
single new ciphertext/nonce row and the listing gains the payload flag. -/
theorem setListingPayload_ok_inv (enc : String → String → String → String)
    (db : DB) (lid sid : Nat) (pt key nonce : String) (now : Nat) (db' : DB)
    (h : setListingPayload enc db lid sid pt key nonce now = .ok db') :
    db' = { db with
      securePayloads :=
        (db.securePayloads.filter (fun p => decide (¬ p.listing_id = lid)))
          ++ [{ listing_id := lid, cipher_text := enc key nonce pt,
                nonce := nonce }]
      listings := db.listings.map (fun l =>
        if l.id = lid then
          { l with has_secure_payload := true, updated_at := now }
        else l) } := by
  unfold setListingPayload at h
  cases hf : db.listings.find? (fun x => decide (x.id = lid ∧ x.seller_id = sid)) with
  | none => rw [hf] at h; exact Except.noConfusion h
  | some l0 =>
    rw [hf] at h
    simp only [Except.ok.injEq] at h
    exact h.symm

/-- Presence of a payload row after replacing the rows of listing `lid` by
one fresh row: listing `lid` now has a row, every other listing has one
exactly when it had one before. -/
theorem payload_presence_replace (l : List SecurePayload) (lid i : Nat)
    (x : SecurePayload) (hx : x.listing_id = lid) :
    ((l.filter (fun p => decide (¬ p.listing_id = lid)) ++ [x]).find?
        (fun p => decide (p.listing_id = i))).isSome =
      (if i = lid then true
       else (l.find? (fun p => decide (p.listing_id = i))).isSome) := by
  induction l with
  | nil =>
    simp only [List.filter_nil, List.nil_append]
    by_cases hi : i = lid
    · subst hi
      rw [if_pos rfl, List.find?_cons_of_pos _ (by simp [hx])]
      rfl
    · rw [if_neg hi, List.find?_cons_of_neg _ (by simp [hx]; exact fun hc => hi hc.symm)]
  | cons a t ih =>
    by_cases ha : a.listing_id = lid
    · rw [List.filter_cons_of_neg (by simp [ha])]
      by_cases hi : i = lid
      · rw [if_pos hi] at ih ⊢
        exact ih
      · rw [if_neg hi] at ih ⊢
        rw [List.find?_cons_of_neg _ (by simp [ha]; exact fun hc => hi (ha ▸ hc.symm))]
        exact ih
    · rw [List.filter_cons_of_pos (by simp [ha])]
      by_cases hpa : a.listing_id = i
      · have hi : ¬ i = lid := fun hil => ha (hpa.trans hil)
        rw [List.cons_append, List.find?_cons_of_pos _ (by simp [hpa]),
          if_neg hi, List.find?_cons_of_pos _ (by simp [hpa])]
      · rw [List.cons_append, List.find?_cons_of_neg _ (by simp [hpa])]
        by_cases hi : i = lid
        · rw [if_pos hi] at ih ⊢
          exact ih
        · rw [if_neg hi] at ih ⊢
          rw [List.find?_cons_of_neg _ (by simp [hpa])]
          exact ih

/-- `getOrder` is determined by the orders, the listings, and which
listings have a payload row — never by the payload contents. -/
theorem getOrder_congr (db1 db2 : DB)
    (horders : db1.orders = db2.orders) (hlistings : db1.listings = db2.listings)
    (hp : ∀ i : Nat,
      (db1.securePayloads.find? (fun p => decide (p.listing_id = i))).isSome =
      (db2.securePayloads.find? (fun p => decide (p.listing_id = i))).isSome)
    (oid uid : Nat) (role : Role) :
    getOrder db1 oid uid role = getOrder db2 oid uid role := by
  cases hoo : db2.orders.find? (fun x => decide (x.id = oid)) with
  | none =>
    have hL : getOrder db1 oid uid role = .error .orderNotFound := by
      simp only [getOrder, horders, hoo]
    have hR : getOrder db2 oid uid role = .error .orderNotFound := by
      simp only [getOrder, hoo]
    rw [hL, hR]
  | some o =>
    cases hll : db2.listings.find? (fun x => decide (x.id = o.listing_id)) with
    | none =>
      have hL : getOrder db1 oid uid role = .error .orderNotFound := by
        simp only [getOrder, horders, hlistings, hoo, hll]
      have hR : getOrder db2 oid uid role = .error .orderNotFound := by
        simp only [getOrder, hoo, hll]
      rw [hL, hR]
    | some l =>
      have hpl := hp l.id
      by_cases hacc : role = Role.admin ∨ o.buyer_id = uid ∨ l.seller_id = uid
      · have hL : getOrder db1 oid uid role = .ok
            { id := o.id, buyer_id := o.buyer_id, listing_id := o.listing_id,
              total_cents := o.total_cents, currency := o.currency,
              status := o.status, expires_at := o.expires_at,
              created_at := o.created_at, updated_at := o.updated_at,
              decryptedCredentials :=
                if o.buyer_id = uid ∧ (o.status = OrderStatus.paid ∨
                    o.status = OrderStatus.delivered ∨
                    o.status = OrderStatus.complete) then
                  match db1.securePayloads.find?
                      (fun p => decide (p.listing_id = l.id)) with
                  | some _ =>
                    some ("[ENCRYPTED_CREDENTIALS_FOR_LISTING_" ++ toString l.id ++ "]")
                  | none => none
                else none } := by
          simp only [getOrder, horders, hlistings, hoo, hll]
          rw [if_neg (not_not_intro hacc)]
        have hR : getOrder db2 oid uid role = .ok
            { id := o.id, buyer_id := o.buyer_id, listing_id := o.listing_id,
              total_cents := o.total_cents, currency := o.currency,
              status := o.status, expires_at := o.expires_at,
              created_at := o.created_at, updated_at := o.updated_at,
              decryptedCredentials :=
                if o.buyer_id = uid ∧ (o.status = OrderStatus.paid ∨
                    o.status = OrderStatus.delivered ∨
                    o.status = OrderStatus.complete) then
                  match db2.securePayloads.find?
                      (fun p => decide (p.listing_id = l.id)) with
                  | some _ =>
                    some ("[ENCRYPTED_CREDENTIALS_FOR_LISTING_" ++ toString l.id ++ "]")
                  | none => none
                else none } := by
          simp only [getOrder, hoo, hll]
          rw [if_neg (not_not_intro hacc)]
        rw [hL, hR]
        by_cases hb : o.buyer_id = uid ∧ (o.status = OrderStatus.paid ∨
            o.status = OrderStatus.delivered ∨ o.status = OrderStatus.complete)
        · rw [if_pos hb, if_pos hb]
          cases hp1 : db1.securePayloads.find? (fun p => decide (p.listing_id = l.id)) with
          | none =>
            cases hp2 : db2.securePayloads.find? (fun p => decide (p.listing_id = l.id)) with
            | none => rfl
            | some p2 => rw [hp1, hp2] at hpl; simp at hpl
          | some p1 =>
            cases hp2 : db2.securePayloads.find? (fun p => decide (p.listing_id = l.id)) with
            | none => rw [hp1, hp2] at hpl; simp at hpl
            | some p2 => rfl
        · rw [if_neg hb, if_neg hb]
      · have hL : getOrder db1 oid uid role = .error .accessDenied := by
          simp only [getOrder, horders, hlistings, hoo, hll]
          rw [if_pos hacc]
        have hR : getOrder db2 oid uid role = .error .accessDenied := by
          simp only [getOrder, hoo, hll]
          rw [if_pos hacc]
        rw [hL, hR]

/-- C10: storing a listing payload persists only the ciphertext and the
nonce — running `setListingPayload` twice on the same database with
different plaintexts, keys and nonces yields databases on which `getOrder`
agrees everywhere — and whenever `getOrder` does return a credential value
it is the fixed placeholder string for the listing id, never anything
derived from the stored payload. -/
theorem setListingPayload_secrecy :
    (∀ (enc : String → String → String → String) (db : DB) (lid sid : Nat)
       (pt1 k1 n1 pt2 k2 n2 : String) (now : Nat) (db1 db2 : DB),
      setListingPayload enc db lid sid pt1 k1 n1 now = .ok db1 →
      setListingPayload enc db lid sid pt2 k2 n2 now = .ok db2 →
      db1.securePayloads =
        (db.securePayloads.filter (fun p => decide (¬ p.listing_id = lid)))
          ++ [{ listing_id := lid, cipher_text := enc k1 n1 pt1, nonce := n1 }] ∧
      ∀ (oid uid : Nat) (role : Role),
        getOrder db1 oid uid role = getOrder db2 oid uid role) ∧
    (∀ (db : DB) (oid uid : Nat) (role : Role) (o : Order) (l : Listing)
       (resp : OrderResponse),
      db.orders.find? (fun x => decide (x.id = oid)) = some o →
      db.listings.find? (fun x => decide (x.id = o.listing_id)) = some l →
      getOrder db oid uid role = .ok resp →
      resp.decryptedCredentials = none ∨
      resp.decryptedCredentials =
        some ("[ENCRYPTED_CREDENTIALS_FOR_LISTING_" ++ toString l.id ++ "]")) := by
  constructor
  · intro enc db lid sid pt1 k1 n1 pt2 k2 n2 now db1 db2 h1 h2
    have e1 := setListingPayload_ok_inv enc db lid sid pt1 k1 n1 now db1 h1
    have e2 := setListingPayload_ok_inv enc db lid sid pt2 k2 n2 now db2 h2
    subst e1
    subst e2
    refine ⟨rfl, ?_⟩
    intro oid uid role
    apply getOrder_congr
    · rfl
    · rfl
    · intro i
      rw [payload_presence_replace _ lid i _ rfl,
        payload_presence_replace _ lid i _ rfl]
  · intro db oid uid role o l resp ho hl h
    simp only [getOrder, ho, hl] at h
    by_cases hacc : role = Role.admin ∨ o.buyer_id = uid ∨ l.seller_id = uid
    · rw [if_neg (not_not_intro hacc)] at h
      simp only [Except.ok.injEq] at h
      subst h
      by_cases hb : o.buyer_id = uid ∧
          (o.status = OrderStatus.paid ∨ o.status = OrderStatus.delivered ∨
           o.status = OrderStatus.complete)
      · cases hp : db.securePayloads.find? (fun p => decide (p.listing_id = l.id)) with
        | some p => right; rw [if_pos hb]
        | none => left; rw [if_pos hb]
      · left
        rw [if_neg hb]
    · rw [if_pos hacc] at h
      exact Except.noConfusion h

/-- Witness for C10: two payload writes with different plaintexts, keys and
nonces on `vaultDb`, whose stored states differ only in the stored
ciphertext and nonce and on which `getOrder` agrees everywhere. -/
theorem setListingPayload_secrecy_witness :
    vaultDb1.securePayloads =
      (vaultDb.securePayloads.filter (fun p => decide (¬ p.listing_id = 10)))
        ++ [{ listing_id := 10, cipher_text := encCat "K1" "N1" "alpha",
              nonce := "N1" }] ∧
    ∀ (oid uid : Nat) (role : Role),
      getOrder vaultDb1 oid uid role = getOrder vaultDb2 oid uid role :=
  setListingPayload_secrecy.1 encCat vaultDb 10 2 "alpha" "K1" "N1"
    "beta" "K2" "N2" 5 vaultDb1 vaultDb2 rfl rfl

end AccsMarket
